import Mathlib

/-!
Verification of the video-frame wrapper (`src/util/frame/video.rs`).

The Rust code wraps a raw `AVFrame` handle: an 8-entry stride array
(`linesize`, C `int`), 8 per-plane data pointers, a pixel-format code and a
collection of metadata fields.  We embed the handle as a Lean structure,
machine integers as `Int`/`Nat` with explicit wrap-around where the Rust
code casts, plane memory as a per-plane byte function, and the panicking
accessors as `Except`-valued functions.
-/

namespace FrameVideo

/-- Cast of a C `int` value to Rust `usize` (64-bit): sign extension then
reinterpretation, i.e. reduction modulo 2^64.  Models the `as usize`
casts in `plane`, `plane_mut`, `data` and `data_mut`. -/
def usizeOfInt (x : Int) : Nat := (x % (2 : Int) ^ 64).toNat

/-- Cast of a field holding a C `int` to Rust `u32` (the `as u32` in the
`width`/`height` getters): reduction modulo 2^32. -/
def u32OfInt (x : Int) : Nat := (x % (2 : Int) ^ 32).toNat

/-- Cast of a Rust `u32` to C `int` (the `as c_int` in the
`set_width`/`set_height` setters): two's-complement wrap into i32. -/
def intOfU32 (n : Nat) : Int :=
  if n % 2 ^ 32 < 2 ^ 31 then ((n % 2 ^ 32 : Nat) : Int)
  else ((n % 2 ^ 32 : Nat) : Int) - 2 ^ 32

/-- The pixel-format enumeration.  The registry itself lives outside the
verified file; we embed the distinguished `None` value, the formats the
component impls in `video.rs` name (GRAY8, RGB24/BGR24 and the eight
4-byte orderings), and a catch-all constructor carrying the raw code. -/
inductive Pixel
  | None
  | GRAY8
  | RGB24
  | BGR24
  | RGBA
  | BGRA
  | ARGB
  | ABGR
  | RGBZ
  | BGRZ
  | ZRGB
  | ZBGR
  | other (code : Int)
  deriving DecidableEq

/-- Modelled from the spec: the format registry's encoding of pixel formats
as integer codes (the `Pixel::into` / `mem::transmute` to `AVPixelFormat`
conversion, external to this file).  The spec treats the registry as
external; `-1` is the reserved unset sentinel, every real format has a
non-negative code. -/
def pixelInto : Pixel → Int
  | .None => -1
  | .GRAY8 => 8
  | .RGB24 => 2
  | .BGR24 => 3
  | .RGBA => 26
  | .BGRA => 28
  | .ARGB => 25
  | .ABGR => 27
  | .RGBZ => 295
  | .BGRZ => 296
  | .ZRGB => 297
  | .ZBGR => 298
  | .other c => c

/-- Modelled from the spec: decoding an integer code back to a pixel format
(the external `Pixel::from`).  Codes the registry does not know decode to
the opaque `other` constructor (the spec calls decoding an unknown value a
programming error class); no code decodes to the distinguished `None`,
which the format getter produces only by special-casing the `-1` sentinel
itself. -/
def pixelFrom (c : Int) : Pixel :=
  if c = 8 then .GRAY8
  else if c = 2 then .RGB24
  else if c = 3 then .BGR24
  else if c = 26 then .RGBA
  else if c = 28 then .BGRA
  else if c = 25 then .ARGB
  else if c = 27 then .ABGR
  else if c = 295 then .RGBZ
  else if c = 296 then .BGRZ
  else if c = 297 then .ZRGB
  else if c = 298 then .ZBGR
  else .other c

/-- The raw frame handle (`AVFrame`): format code, dimensions (C `int`
fields), the 8-entry stride array, per-plane byte storage (`mem i off` is
the byte at offset `off` of plane `i`, abstracting the `data[i]` pointer),
and the metadata fields the wrapper exposes.  Enumerated metadata
(picture type, color tags, chroma location) is kept as its raw integer
code: the decoding enums are external pure conversions. -/
structure AVFrame where
  format : Int
  width : Int
  height : Int
  linesize : Fin 8 → Int
  mem : Fin 8 → Nat → Nat
  pict_type : Int
  interlaced_frame : Int
  top_field_first : Int
  palette_has_changed : Int
  color_space : Int
  color_range : Int
  color_primaries : Int
  color_trc : Int
  chroma_location : Int
  sample_aspect_ratio : Int × Int
  coded_picture_number : Int
  display_picture_number : Int
  repeat_pict : Int

/-- A component-type descriptor: the element size `mem::size_of::<T>()`
together with the `Component::is_valid` compatibility predicate the type
declares. -/
structure Component where
  size : Nat
  is_valid : Pixel → Bool

/-- The error conditions the typed view accessors signal by panicking:
an out-of-bounds plane index or an unsupported component type. -/
inductive PlaneError
  | indexOutOfRange
  | incompatibleFormat
  deriving DecidableEq

namespace Video

/-- Getter `Video::width`: reads the handle's width field as `u32`. -/
def width (f : AVFrame) : Nat := u32OfInt f.width

/-- Getter `Video::height`: reads the handle's height field as `u32`. -/
def height (f : AVFrame) : Nat := u32OfInt f.height

/-- Getter `Video::format`: special-cases the `-1` unset sentinel to the
distinguished `None` value, otherwise decodes the stored code. -/
def format (f : AVFrame) : Pixel :=
  if f.format = -1 then Pixel.None else pixelFrom f.format

/-- Setter `Video::set_format`: writes the encoded format code through. -/
def set_format (f : AVFrame) (value : Pixel) : AVFrame :=
  { f with format := pixelInto value }

/-- Setter `Video::set_width`: writes the value as a C `int`. -/
def set_width (f : AVFrame) (value : Nat) : AVFrame :=
  { f with width := intOfU32 value }

/-- Setter `Video::set_height`: writes the value as a C `int`. -/
def set_height (f : AVFrame) (value : Nat) : AVFrame :=
  { f with height := intOfU32 value }

/-- Count `Video::planes`: the loop
`for i in 0..8 { if linesize[i] == 0 return i }; 8`, unrolled over the
eight stride entries. -/
def planes (f : AVFrame) : Nat :=
  if f.linesize 0 = 0 then 0
  else if f.linesize 1 = 0 then 1
  else if f.linesize 2 = 0 then 2
  else if f.linesize 3 = 0 then 3
  else if f.linesize 4 = 0 then 4
  else if f.linesize 5 = 0 then 5
  else if f.linesize 6 = 0 then 6
  else if f.linesize 7 = 0 then 7
  else 8

/-- Modelled from the spec: the per-plane stride accessor (bytes per row,
read from the handle's stride entry as a `usize`). -/
def stride (f : AVFrame) (i : Fin 8) : Nat := usizeOfInt (f.linesize i)

/-- The byte slice `slice::from_raw_parts(data[i], len)`: the first `len`
bytes of plane `i`. -/
def planeSlice (f : AVFrame) (i : Fin 8) (len : Nat) : List Nat :=
  (List.range len).map (f.mem i)

/-- Accessor `Video::data`: walks the stride array with
`take_while(|l| **l > 0)` and pushes, for each surviving index `i`, the
byte slice of length `linesize[i] as usize * height as usize`.  Because
the survivors are exactly a prefix of the indices, `enumerate` pairs each
entry with its own index. -/
def data (f : AVFrame) : List (List Nat) :=
  ((List.finRange 8).takeWhile (fun i => decide (0 < f.linesize i))).map
    (fun i => planeSlice f i (usizeOfInt (f.linesize i) * height f))

/-- Accessor `Video::data_mut`: the same early-terminating walk as `data`,
producing the mutable views (identical indices and lengths). -/
def data_mut (f : AVFrame) : List (List Nat) :=
  ((List.finRange 8).takeWhile (fun i => decide (0 < f.linesize i))).map
    (fun i => planeSlice f i (usizeOfInt (f.linesize i) * height f))

/-- The typed view `slice::from_raw_parts(data[index], linesize[index] as
usize * height as usize / size_of::<T>())`: each element is its
`T.size`-byte group read from plane memory.  The index is in range
whenever the caller passed the `planes` bound check (plane count never
exceeds 8); the out-of-range branch is dead code making the array access
total. -/
def typedSlice (f : AVFrame) (i : Nat) (T : Component) : List (List Nat) :=
  if h : i < 8 then
    (List.range (usizeOfInt (f.linesize ⟨i, h⟩) * height f / T.size)).map
      (fun j => (List.range T.size).map (fun b => f.mem ⟨i, h⟩ (j * T.size + b)))
  else []

/-- Accessor `Video::plane`: panics with index-out-of-range when
`index >= self.planes()`, then with unsupported-type when the component is
not valid for the current format, otherwise returns the typed view. -/
def plane (T : Component) (f : AVFrame) (index : Nat) :
    Except PlaneError (List (List Nat)) :=
  if planes f ≤ index then .error .indexOutOfRange
  else if T.is_valid (format f) = false then .error .incompatibleFormat
  else .ok (typedSlice f index T)

/-- Accessor `Video::plane_mut`: the same checks and the same view
computation as `plane`, for the mutable variant. -/
def plane_mut (T : Component) (f : AVFrame) (index : Nat) :
    Except PlaneError (List (List Nat)) :=
  if planes f ≤ index then .error .indexOutOfRange
  else if T.is_valid (format f) = false then .error .incompatibleFormat
  else .ok (typedSlice f index T)

end Video

/-- Descriptor for `impl Component for [u8; 3]`: 3-byte element, valid
exactly on the two 24-bit packed orderings. -/
def compArr3 : Component :=
  ⟨3, fun p => p == Pixel.RGB24 || p == Pixel.BGR24⟩

/-- Descriptor for `impl Component for (u8, u8, u8)`: same size and
compatibility set as the array spelling. -/
def compTup3 : Component :=
  ⟨3, fun p => p == Pixel.RGB24 || p == Pixel.BGR24⟩

/-- Descriptor for `impl Component for [u8; 4]`: 4-byte element, valid
exactly on the eight 32-bit packed orderings. -/
def compArr4 : Component :=
  ⟨4, fun p => p == Pixel.RGBA || p == Pixel.BGRA || p == Pixel.ARGB || p == Pixel.ABGR ||
      p == Pixel.RGBZ || p == Pixel.BGRZ || p == Pixel.ZRGB || p == Pixel.ZBGR⟩

/-- Descriptor for `impl Component for (u8, u8, u8, u8)`: same size and
compatibility set as the array spelling. -/
def compTup4 : Component :=
  ⟨4, fun p => p == Pixel.RGBA || p == Pixel.BGRA || p == Pixel.ARGB || p == Pixel.ABGR ||
      p == Pixel.RGBZ || p == Pixel.BGRZ || p == Pixel.ZRGB || p == Pixel.ZBGR⟩

/-- Descriptor for `impl Component for image::Luma<u8>` (the single-byte
gray layout): 1-byte element, valid exactly on 8-bit grayscale. -/
def lumaU8 : Component :=
  ⟨1, fun p => p == Pixel.GRAY8⟩

/-- Modelled from the spec: bytes per pixel of the packed single-plane
formats the component impls name (1-byte gray, 3-byte triples, 4-byte
quads); `none` for formats whose layout the model does not cover. -/
def bytesPerPixel : Pixel → Option Nat
  | .GRAY8 => some 1
  | .RGB24 => some 3
  | .BGR24 => some 3
  | .RGBA => some 4
  | .BGRA => some 4
  | .ARGB => some 4
  | .ABGR => some 4
  | .RGBZ => some 4
  | .BGRZ => some 4
  | .ZRGB => some 4
  | .ZBGR => some 4
  | _ => Option.none

/-- Modelled from the spec: the stride array a fresh allocation commits for
a packed single-plane format at alignment 1 — plane 0 gets exactly
`width × bytes-per-pixel` bytes per row (no padding at alignment 1, and
at least 16 for a width-4 quad format as §8 expects), every other entry
stays 0. -/
def allocLinesize (p : Pixel) (w : Nat) : Fin 8 → Int :=
  match bytesPerPixel p with
  | some b => fun i => if i = 0 then ((w * b : Nat) : Int) else 0
  | Option.none => fun _ => 0

namespace Video

/-- Modelled from the spec: `Frame::empty` / the external `av_frame_alloc`
— a frame with no backing storage: format holds the unset sentinel,
dimensions are zero, all strides are zero. -/
def empty : AVFrame :=
  { format := -1
    width := 0
    height := 0
    linesize := fun _ => 0
    mem := fun _ _ => 0
    pict_type := 0
    interlaced_frame := 0
    top_field_first := 0
    palette_has_changed := 0
    color_space := 0
    color_range := 0
    color_primaries := 0
    color_trc := 0
    chroma_location := 0
    sample_aspect_ratio := (0, 1)
    coded_picture_number := 0
    display_picture_number := 0
    repeat_pict := 0 }

/-- Modelled from the spec: the external buffer-allocation primitive
`av_frame_get_buffer(frame, align)` — commits plane storage for the
frame's current format/width/height, recomputing the stride array and
installing fresh storage (whose bytes the model takes as zero).  The
metadata fields are untouched.  The alignment argument (always 1 in the
source) adds no padding. -/
def av_frame_get_buffer (f : AVFrame) (_align : Int) : AVFrame :=
  { f with
    linesize := allocLinesize (format f) (width f)
    mem := fun _ _ => 0 }

/-- Allocation `Video::alloc`: sets format, width and height through the
metadata setters, then requests the buffer allocation with alignment 1.
The source performs no already-allocated check (the function is
`unsafe`). -/
def alloc (f : AVFrame) (fmt : Pixel) (w h : Nat) : AVFrame :=
  av_frame_get_buffer (set_height (set_width (set_format f fmt) w) h) 1

/-- Constructor `Video::new`: create empty, then allocate. -/
def new (fmt : Pixel) (w h : Nat) : AVFrame :=
  alloc empty fmt w h

/-- Getter `Video::kind`: the picture-type field (its enum decoding is an
external pure conversion, represented by the raw code). -/
def kind (f : AVFrame) : Int := f.pict_type

/-- Getter `Video::is_interlaced`: the interlaced flag read as a boolean. -/
def is_interlaced (f : AVFrame) : Bool := decide (f.interlaced_frame ≠ 0)

/-- Getter `Video::is_top_first`: the top-field-first flag read as a
boolean. -/
def is_top_first (f : AVFrame) : Bool := decide (f.top_field_first ≠ 0)

/-- Getter `Video::has_palette_changed`: the palette-changed flag read as a
boolean. -/
def has_palette_changed (f : AVFrame) : Bool := decide (f.palette_has_changed ≠ 0)

/-- Getter `Video::color_space`: reads the colorspace field through the
external accessor (decoding is an external pure conversion, kept as the
code). -/
def color_space (f : AVFrame) : Int := f.color_space

/-- Getter `Video::color_range`: reads the color-range field. -/
def color_range (f : AVFrame) : Int := f.color_range

/-- Getter `Video::color_primaries`: reads the color-primaries field. -/
def color_primaries (f : AVFrame) : Int := f.color_primaries

/-- Getter `Video::color_transfer_characteristic`: reads the transfer
characteristic field. -/
def color_transfer_characteristic (f : AVFrame) : Int := f.color_trc

/-- Getter `Video::chroma_location`: reads the chroma-location field. -/
def chroma_location (f : AVFrame) : Int := f.chroma_location

/-- Getter `Video::aspect_ratio`: the sample-aspect-ratio rational, kept as
its numerator/denominator pair. -/
def aspect_ratio (f : AVFrame) : Int × Int := f.sample_aspect_ratio

/-- Getter `Video::coded_number`: the coded picture number as `usize`. -/
def coded_number (f : AVFrame) : Nat := usizeOfInt f.coded_picture_number

/-- Getter `Video::display_number`: the display picture number as
`usize`. -/
def display_number (f : AVFrame) : Nat := usizeOfInt f.display_picture_number

/-- Modelled from the spec: the external pixel-data copy primitive
`av_frame_copy(dst, src)` — duplicates the pixel bytes of every plane from
source to destination (represented by copying the per-plane byte stores),
leaving the destination's own format, dimensions, strides and metadata in
place. -/
def av_frame_copy (dst src : AVFrame) : AVFrame :=
  { dst with mem := src.mem }

/-- Modelled from the spec: the external metadata copy primitive
`av_frame_copy_props(dst, src)` — copies every metadata field (picture
type, flags, color tags, chroma location, aspect ratio, picture numbers,
repeat count) from source to destination, leaving format, dimensions,
strides and pixel storage in place. -/
def av_frame_copy_props (dst src : AVFrame) : AVFrame :=
  { dst with
    pict_type := src.pict_type
    interlaced_frame := src.interlaced_frame
    top_field_first := src.top_field_first
    palette_has_changed := src.palette_has_changed
    color_space := src.color_space
    color_range := src.color_range
    color_primaries := src.color_primaries
    color_trc := src.color_trc
    chroma_location := src.chroma_location
    sample_aspect_ratio := src.sample_aspect_ratio
    coded_picture_number := src.coded_picture_number
    display_picture_number := src.display_picture_number
    repeat_pict := src.repeat_pict }

/-- Method `Clone::clone_from` for `Video`: copy the pixel data, then the
properties. -/
def clone_from (f source : AVFrame) : AVFrame :=
  av_frame_copy_props (av_frame_copy f source) source

/-- Method `Clone::clone` for `Video`: allocate a brand-new frame with the
source's format, width and height, then `clone_from` the source. -/
def clone (f : AVFrame) : AVFrame :=
  clone_from (new (format f) (width f) (height f)) f

/-- The effect of writing byte value `v` through a mutable view at offset
`off` of plane `i`: the aliased backing storage is updated in place (this
is the semantics of assigning through the slices `plane_mut` / `data_mut`
return). -/
def writePlaneByte (f : AVFrame) (i : Fin 8) (off : Nat) (v : Nat) : AVFrame :=
  { f with mem := fun i2 o2 => if i2 = i ∧ o2 = off then v else f.mem i2 o2 }

end Video

/-- Sample frame: a freshly allocated 2×2 GRAY8 frame. -/
def grayFrame : AVFrame := Video.new Pixel.GRAY8 2 2

/-- Sample frame: a freshly allocated 4×2 RGBA frame. -/
def rgbaFrame : AVFrame := Video.new Pixel.RGBA 4 2

/-- Sample frame with stride array `[-1, 0, 0, 0, 0, 0, 0, 0]`: one leading
negative stride.  The plane-count scan counts it (it only stops at zero)
while the byte-view loops stop at any non-positive entry. -/
def negStrideFrame : AVFrame :=
  { Video.empty with linesize := fun i => if i = 0 then -1 else 0 }

/-- Sample wrapped frame whose single plane has format RGBA but stride 5
(height 1): both `plane` preconditions pass, yet 5 bytes are not a whole
number of 4-byte quads. -/
def oddStrideFrame : AVFrame :=
  { Video.empty with
    format := 26
    height := 1
    linesize := fun i => if i = 0 then 5 else 0 }

end FrameVideo

namespace FrameVideo

/-- The plane count never exceeds the fixed maximum of 8. -/
theorem planes_le_eight (f : AVFrame) : Video.planes f ≤ 8 := by
  unfold Video.planes
  repeat' split
  all_goals omega

/-- Decoding never produces the distinguished unset value: only the
sentinel branch of the format getter does. -/
lemma pixelFrom_ne_none (c : Int) : pixelFrom c ≠ Pixel.None := by
  unfold pixelFrom
  repeat' split
  all_goals simp

/-- A nonzero leading stride makes the plane count positive. -/
lemma planes_pos_of_first (f : AVFrame) (h : f.linesize 0 ≠ 0) :
    0 < Video.planes f := by
  unfold Video.planes
  rw [if_neg h]
  repeat' split
  all_goals omega

/-- C5: `planes()` returns the index of the first stride entry equal to
zero among indices 0..8 (the scan of the first 8 entries, 8 when none is
zero), the result is always at most 8, and the empty frame — all strides
zero — has plane count 0. -/
theorem planes_first_zero (f : AVFrame) :
    Video.planes f = (List.finRange 8).findIdx (fun i => f.linesize i == 0)
    ∧ Video.planes f ≤ 8
    ∧ Video.planes Video.empty = 0 := by
  refine ⟨?_, planes_le_eight f, by decide⟩
  have e : (List.finRange 8) = [0, 1, 2, 3, 4, 5, 6, 7] := rfl
  rw [e]
  by_cases h0 : f.linesize 0 = 0
  · simp [Video.planes, List.findIdx_cons, Bool.cond_eq_ite, beq_iff_eq, h0]
  · by_cases h1 : f.linesize 1 = 0
    · simp [Video.planes, List.findIdx_cons, Bool.cond_eq_ite, beq_iff_eq, h0, h1]
    · by_cases h2 : f.linesize 2 = 0
      · simp [Video.planes, List.findIdx_cons, Bool.cond_eq_ite, beq_iff_eq, h0, h1, h2]
      · by_cases h3 : f.linesize 3 = 0
        · simp [Video.planes, List.findIdx_cons, Bool.cond_eq_ite, beq_iff_eq, h0, h1, h2, h3]
        · by_cases h4 : f.linesize 4 = 0
          · simp [Video.planes, List.findIdx_cons, Bool.cond_eq_ite, beq_iff_eq, h0, h1, h2,
              h3, h4]
          · by_cases h5 : f.linesize 5 = 0
            · simp [Video.planes, List.findIdx_cons, Bool.cond_eq_ite, beq_iff_eq, h0, h1, h2,
                h3, h4, h5]
            · by_cases h6 : f.linesize 6 = 0
              · simp [Video.planes, List.findIdx_cons, Bool.cond_eq_ite, beq_iff_eq, h0, h1, h2,
                  h3, h4, h5, h6]
              · by_cases h7 : f.linesize 7 = 0
                · simp [Video.planes, List.findIdx_cons, Bool.cond_eq_ite, beq_iff_eq, h0, h1,
                    h2, h3, h4, h5, h6, h7]
                · simp [Video.planes, List.findIdx_cons, Bool.cond_eq_ite, beq_iff_eq, h0, h1,
                    h2, h3, h4, h5, h6, h7]

/-- C3: `plane` and `plane_mut` signal the index-out-of-range condition
exactly when the index is at or beyond the plane count; in particular the
index `planes()` always signals it and the index `planes() - 1` never does
when the count is positive. -/
theorem plane_index_range (T : Component) (f : AVFrame) (i : Nat) :
    (Video.plane T f i = .error .indexOutOfRange ↔ Video.planes f ≤ i)
    ∧ (Video.plane_mut T f i = .error .indexOutOfRange ↔ Video.planes f ≤ i)
    ∧ Video.plane T f (Video.planes f) = .error .indexOutOfRange
    ∧ (0 < Video.planes f →
        Video.plane T f (Video.planes f - 1) ≠ .error .indexOutOfRange) := by
  refine ⟨?_, ?_, ?_, ?_⟩
  · by_cases hle : Video.planes f ≤ i
    · simp [Video.plane, hle]
    · by_cases hv : T.is_valid (Video.format f) = false <;>
        simp [Video.plane, hle, hv]
  · by_cases hle : Video.planes f ≤ i
    · simp [Video.plane_mut, hle]
    · by_cases hv : T.is_valid (Video.format f) = false <;>
        simp [Video.plane_mut, hle, hv]
  · simp [Video.plane]
  · intro hp
    have hlt : ¬ (Video.planes f ≤ Video.planes f - 1) := by omega
    by_cases hv : T.is_valid (Video.format f) = false <;>
      simp [Video.plane, hlt, hv]

/-- C3 witness: on a freshly allocated GRAY8 frame the last valid index
does not signal index-out-of-range. -/
theorem plane_index_range_witness :
    0 < Video.planes grayFrame
    ∧ Video.plane compArr4 grayFrame (Video.planes grayFrame - 1)
        ≠ Except.error PlaneError.indexOutOfRange :=
  ⟨by decide, (plane_index_range compArr4 grayFrame 0).2.2.2 (by decide)⟩

/-- C4: for a valid plane index, `plane` signals the incompatible-format
condition exactly when the component type declares the current pixel format
invalid (and then never returns a view); the 4-byte quad layout's
compatibility set is exactly the eight 32-bit orderings, so a quad view on
a grayscale-format frame signals incompatible-format. -/
theorem plane_format_gate (T : Component) (f : AVFrame) (i : Nat)
    (h : i < Video.planes f) :
    (Video.plane T f i = .error .incompatibleFormat ↔
      T.is_valid (Video.format f) = false)
    ∧ (∀ p : Pixel, compArr4.is_valid p = true ↔
        (p = .RGBA ∨ p = .BGRA ∨ p = .ARGB ∨ p = .ABGR ∨
         p = .RGBZ ∨ p = .BGRZ ∨ p = .ZRGB ∨ p = .ZBGR))
    ∧ (Video.format f = .GRAY8 →
        Video.plane compArr4 f i = .error .incompatibleFormat) := by
  have hle : ¬ (Video.planes f ≤ i) := by omega
  refine ⟨?_, ?_, ?_⟩
  · by_cases hv : T.is_valid (Video.format f) = false <;>
      simp [Video.plane, hle, hv]
  · intro p
    cases p <;> simp [compArr4]
  · intro hf
    simp [Video.plane, hle, hf, compArr4]

/-- C4 witness: the quad view on a freshly allocated GRAY8 frame signals
incompatible-format. -/
theorem plane_format_gate_witness :
    Video.plane compArr4 grayFrame 0 = Except.error PlaneError.incompatibleFormat :=
  (plane_format_gate compArr4 grayFrame 0 (by decide)).2.2 (by decide)

/-- C7: the format getter reports the distinguished unset value exactly
when the handle's field holds the `-1` sentinel (never by decoding a
code), and an empty frame reports it. -/
theorem format_none_sentinel (f : AVFrame) :
    (Video.format f = Pixel.None ↔ f.format = -1)
    ∧ Video.format Video.empty = Pixel.None := by
  refine ⟨?_, by decide⟩
  by_cases h : f.format = -1
  · simp [Video.format, h]
  · simp [Video.format, h, pixelFrom_ne_none]

/-- C10: the array and tuple spellings of the 3-byte and 4-byte layouts
declare identical compatibility sets, so the typed accessor treats them
identically on every frame and index. -/
theorem component_spellings_agree :
    (∀ p : Pixel, compArr3.is_valid p = compTup3.is_valid p)
    ∧ (∀ p : Pixel, compArr4.is_valid p = compTup4.is_valid p)
    ∧ (∀ (f : AVFrame) (i : Nat), Video.plane compArr3 f i = Video.plane compTup3 f i)
    ∧ (∀ (f : AVFrame) (i : Nat), Video.plane compArr4 f i = Video.plane compTup4 f i) :=
  ⟨fun _ => rfl, fun _ => rfl, fun _ _ => rfl, fun _ _ => rfl⟩

/-- C1 counterexample: with a negative leading stride the byte-view loops
(which stop at the first non-positive entry) and the plane-count scan
(which stops only at zero) disagree, so `data()` / `data_mut()` do not
have `planes()` elements for every possible stride array. -/
theorem data_planes_disagree :
    (Video.data negStrideFrame).length ≠ Video.planes negStrideFrame
    ∧ (Video.data_mut negStrideFrame).length ≠ Video.planes negStrideFrame := by
  decide

/-- The byte-view walk keeps exactly the plane-count prefix when no stride
entry is negative. -/
lemma takeWhile_len_eq_planes (f : AVFrame) (h : ∀ i : Fin 8, 0 ≤ f.linesize i) :
    ((List.finRange 8).takeWhile (fun i => decide (0 < f.linesize i))).length
      = Video.planes f := by
  have e : (List.finRange 8) = [0, 1, 2, 3, 4, 5, 6, 7] := rfl
  rw [e]
  by_cases h0 : f.linesize 0 = 0
  · simp [Video.planes, List.takeWhile_cons, h0]
  · have p0 : (0 : Int) < f.linesize 0 := lt_of_le_of_ne (h 0) (Ne.symm h0)
    by_cases h1 : f.linesize 1 = 0
    · simp [Video.planes, List.takeWhile_cons, h0, h1, p0]
    · have p1 : (0 : Int) < f.linesize 1 := lt_of_le_of_ne (h 1) (Ne.symm h1)
      by_cases h2 : f.linesize 2 = 0
      · simp [Video.planes, List.takeWhile_cons, h0, h1, h2, p0, p1]
      · have p2 : (0 : Int) < f.linesize 2 := lt_of_le_of_ne (h 2) (Ne.symm h2)
        by_cases h3 : f.linesize 3 = 0
        · simp [Video.planes, List.takeWhile_cons, h0, h1, h2, h3, p0, p1, p2]
        · have p3 : (0 : Int) < f.linesize 3 := lt_of_le_of_ne (h 3) (Ne.symm h3)
          by_cases h4 : f.linesize 4 = 0
          · simp [Video.planes, List.takeWhile_cons, h0, h1, h2, h3, h4, p0, p1, p2, p3]
          · have p4 : (0 : Int) < f.linesize 4 := lt_of_le_of_ne (h 4) (Ne.symm h4)
            by_cases h5 : f.linesize 5 = 0
            · simp [Video.planes, List.takeWhile_cons, h0, h1, h2, h3, h4, h5,
                p0, p1, p2, p3, p4]
            · have p5 : (0 : Int) < f.linesize 5 := lt_of_le_of_ne (h 5) (Ne.symm h5)
              by_cases h6 : f.linesize 6 = 0
              · simp [Video.planes, List.takeWhile_cons, h0, h1, h2, h3, h4, h5, h6,
                  p0, p1, p2, p3, p4, p5]
              · have p6 : (0 : Int) < f.linesize 6 := lt_of_le_of_ne (h 6) (Ne.symm h6)
                by_cases h7 : f.linesize 7 = 0
                · simp [Video.planes, List.takeWhile_cons, h0, h1, h2, h3, h4, h5, h6, h7,
                    p0, p1, p2, p3, p4, p5, p6]
                · have p7 : (0 : Int) < f.linesize 7 := lt_of_le_of_ne (h 7) (Ne.symm h7)
                  simp [Video.planes, List.takeWhile_cons, h0, h1, h2, h3, h4, h5, h6, h7,
                    p0, p1, p2, p3, p4, p5, p6, p7]

/-- C1 amended: on every frame whose stride entries are all nonnegative,
the independently computed early-termination loops agree — `data()` and
`data_mut()` return exactly `planes()` byte-slice views (with a negative
stride before the first zero they can disagree, see the counterexample). -/
theorem data_planes_agree_nonneg (f : AVFrame) (h : ∀ i : Fin 8, 0 ≤ f.linesize i) :
    (Video.data f).length = Video.planes f
    ∧ (Video.data_mut f).length = Video.planes f := by
  refine ⟨?_, ?_⟩ <;>
    simp [Video.data, Video.data_mut, List.length_map, takeWhile_len_eq_planes f h]

/-- C1 witness: on a freshly allocated GRAY8 frame the byte views match the
plane count. -/
theorem data_planes_agree_nonneg_witness :
    (Video.data grayFrame).length = Video.planes grayFrame :=
  (data_planes_agree_nonneg grayFrame (by decide)).1

end FrameVideo

namespace FrameVideo

/-- C2 counterexample: on `oddStrideFrame` both preconditions pass, the
returned quad view has `5 * 1 / 4 = 1` element, but the division is not
exact — stride × height is not a multiple of the component size and one
trailing byte is silently discarded. -/
theorem plane_division_not_exact :
    0 < Video.planes oddStrideFrame
    ∧ compArr4.is_valid (Video.format oddStrideFrame) = true
    ∧ (Video.plane compArr4 oddStrideFrame 0).toOption.map List.length = some 1
    ∧ ¬ (compArr4.size ∣ Video.stride oddStrideFrame 0 * Video.height oddStrideFrame)
    ∧ 1 * compArr4.size ≠ Video.stride oddStrideFrame 0 * Video.height oddStrideFrame := by
  decide

/-- C2 amended: when both preconditions pass, the view has exactly
⌊stride × height / size_of(T)⌋ elements; the division is exact whenever the
component size divides stride × height — which the source does not check —
and it does hold on a freshly allocated 4×2 RGBA frame, where stride(0) is
16 and the quad view has exactly 16·2/4 = 8 elements. -/
theorem plane_element_count (T : Component) (f : AVFrame) (i : Fin 8)
    (h1 : (i : Nat) < Video.planes f)
    (h2 : T.is_valid (Video.format f) = true) :
    (Video.plane T f i).toOption.map List.length
        = some (Video.stride f i * Video.height f / T.size)
    ∧ (T.size ∣ Video.stride f i * Video.height f →
        (Video.stride f i * Video.height f / T.size) * T.size
          = Video.stride f i * Video.height f)
    ∧ Video.stride rgbaFrame 0 = 16
    ∧ (Video.plane compArr4 rgbaFrame 0).toOption.map List.length = some 8
    ∧ compArr4.size ∣ Video.stride rgbaFrame 0 * Video.height rgbaFrame := by
  have hle : ¬ (Video.planes f ≤ (i : Nat)) := by omega
  refine ⟨?_, fun hd => Nat.div_mul_cancel hd, by decide, by decide, by decide⟩
  rw [Video.plane, if_neg hle, if_neg (by simp [h2])]
  rw [Video.typedSlice, dif_pos i.isLt]
  simp [Except.toOption, Video.stride, List.length_map, List.length_range]

/-- C2 witness: the quad view on the fresh 4×2 RGBA frame has exactly
stride × height / size elements. -/
theorem plane_element_count_witness :
    (Video.plane compArr4 rgbaFrame 0).toOption.map List.length
      = some (Video.stride rgbaFrame 0 * Video.height rgbaFrame / compArr4.size) :=
  (plane_element_count compArr4 rgbaFrame 0 (by decide) (by decide)).1

/-- C9 counterexample: `alloc` on a frame that already owns storage (plane
count 1, nonzero strides) performs no check and does not leave the state
as it was — the format field is overwritten by the new request. -/
theorem alloc_overwrites_allocated :
    Video.planes (Video.new Pixel.GRAY8 2 2) ≠ 0
    ∧ (Video.alloc (Video.new Pixel.GRAY8 2 2) Pixel.RGBA 4 2).format
        ≠ (Video.new Pixel.GRAY8 2 2).format := by
  decide

/-- C9 amended: `alloc` is unchecked — on any frame, already allocated or
not, it proceeds (no error is representable in its signature) and leaves
the storage-relevant state (format, dimensions, strides, pixel bytes, byte
views) exactly that of a fresh allocation with the new parameters; the
prior allocation state is discarded rather than reported. -/
theorem alloc_ignores_prior_state (f : AVFrame) (fmt : Pixel) (w h : Nat) :
    (Video.alloc f fmt w h).format = (Video.new fmt w h).format
    ∧ (Video.alloc f fmt w h).width = (Video.new fmt w h).width
    ∧ (Video.alloc f fmt w h).height = (Video.new fmt w h).height
    ∧ (Video.alloc f fmt w h).linesize = (Video.new fmt w h).linesize
    ∧ (Video.alloc f fmt w h).mem = (Video.new fmt w h).mem
    ∧ Video.data (Video.alloc f fmt w h) = Video.data (Video.new fmt w h) :=
  ⟨rfl, rfl, rfl, rfl, rfl, rfl⟩

/-- C8: on a GRAY8 frame the 1-byte gray view succeeds with exactly
stride(0) × height elements (for the mutable variant too), and a byte
written through the mutable view is observed at the same offset through a
subsequently obtained `data()` byte view of plane 0. -/
theorem gray_write_read (f : AVFrame) (hf : Video.format f = Pixel.GRAY8)
    (hs : 0 < f.linesize 0) (v j : Nat)
    (hj : j < Video.stride f 0 * Video.height f) :
    (Video.plane lumaU8 f 0).toOption.map List.length
        = some (Video.stride f 0 * Video.height f)
    ∧ (Video.plane_mut lumaU8 f 0).toOption.map List.length
        = some (Video.stride f 0 * Video.height f)
    ∧ ((Video.data (Video.writePlaneByte f 0 j v)).head?.bind fun s => s.get? j)
        = some v := by
  have h0 : f.linesize 0 ≠ 0 := by omega
  have hp : 0 < Video.planes f := planes_pos_of_first f h0
  have hle : ¬ (Video.planes f ≤ 0) := by omega
  have hv : lumaU8.is_valid (Video.format f) = true := by simp [lumaU8, hf]
  refine ⟨?_, ?_, ?_⟩
  · rw [Video.plane, if_neg hle, if_neg (by simp [hv])]
    simp [Except.toOption, Video.typedSlice, Video.stride, lumaU8,
      List.length_map, List.length_range, Nat.div_one]
  · rw [Video.plane_mut, if_neg hle, if_neg (by simp [hv])]
    simp [Except.toOption, Video.typedSlice, Video.stride, lumaU8,
      List.length_map, List.length_range, Nat.div_one]
  · have hb : (decide ((0 : Int) < (Video.writePlaneByte f 0 j v).linesize 0)) = true :=
      decide_eq_true hs
    have e : (List.finRange 8) = 0 :: [1, 2, 3, 4, 5, 6, 7] := rfl
    have ht : List.takeWhile (fun i => decide (0 < (Video.writePlaneByte f 0 j v).linesize i))
          [0, 1, 2, 3, 4, 5, 6, 7]
        = 0 :: List.takeWhile (fun i => decide (0 < (Video.writePlaneByte f 0 j v).linesize i))
          [1, 2, 3, 4, 5, 6, 7] := List.takeWhile_cons_of_pos hb
    rw [Video.data, e, ht, List.map_cons, List.head?_cons]
    show (Option.some (Video.planeSlice (Video.writePlaneByte f 0 j v) 0
        (usizeOfInt ((Video.writePlaneByte f 0 j v).linesize 0)
          * Video.height (Video.writePlaneByte f 0 j v)))).bind (fun s => s.get? j) = some v
    have hj2 : j < usizeOfInt ((Video.writePlaneByte f 0 j v).linesize 0)
        * Video.height (Video.writePlaneByte f 0 j v) := hj
    simp only [Option.some_bind]
    rw [Video.planeSlice, List.get?_map, List.get?_range hj2]
    simp [Video.writePlaneByte]

/-- C8 witness: writing byte 9 at offset 1 of the fresh GRAY8 frame's plane
0 is visible at offset 1 of the first `data()` view. -/
theorem gray_write_read_witness :
    ((Video.data (Video.writePlaneByte grayFrame 0 1 9)).head?.bind fun s => s.get? 1)
      = some 9 :=
  (gray_write_read grayFrame (by decide) (by decide) 9 1 (by decide)).2.2

end FrameVideo

namespace FrameVideo

/-- The `u32` read of any C `int` field is below 2^32. -/
lemma u32OfInt_lt (x : Int) : u32OfInt x < 2 ^ 32 := by
  unfold u32OfInt
  omega

/-- Writing a `u32` through the C `int` field and reading it back yields
the value modulo 2^32. -/
lemma u32OfInt_intOfU32 (n : Nat) : u32OfInt (intOfU32 n) = n % 2 ^ 32 := by
  unfold u32OfInt intOfU32
  split <;> omega

/-- Encoding a covered packed format and decoding the code recovers the
format, and its code is never the unset sentinel. -/
lemma pixel_roundtrip (p : Pixel) (hp : (bytesPerPixel p).isSome = true) :
    pixelInto p ≠ -1 ∧ pixelFrom (pixelInto p) = p := by
  cases p
  case None => simp [bytesPerPixel] at hp
  case other c => simp [bytesPerPixel] at hp
  all_goals exact ⟨by decide, by decide⟩

/-- A fresh allocation commits the canonical stride array and reports
exactly the requested format and dimensions. -/
lemma new_spec (p : Pixel) (w h : Nat) (hp : (bytesPerPixel p).isSome = true)
    (hw : w < 2 ^ 32) :
    (Video.new p w h).linesize = allocLinesize p w
    ∧ Video.format (Video.new p w h) = p
    ∧ Video.width (Video.new p w h) = w
    ∧ Video.height (Video.new p w h) = h % 2 ^ 32 := by
  obtain ⟨hne, hrt⟩ := pixel_roundtrip p hp
  have hfx : Video.format
      (Video.set_height (Video.set_width (Video.set_format Video.empty p) w) h) = p := by
    simp [Video.format, Video.set_height, Video.set_width, Video.set_format, hne, hrt]
  have hwx : Video.width
      (Video.set_height (Video.set_width (Video.set_format Video.empty p) w) h) = w := by
    simp [Video.width, Video.set_height, Video.set_width, Video.set_format,
      u32OfInt_intOfU32]
    omega
  refine ⟨?_, ?_, ?_, ?_⟩
  · have e : (Video.new p w h).linesize
        = allocLinesize
            (Video.format (Video.set_height (Video.set_width (Video.set_format Video.empty p) w) h))
            (Video.width (Video.set_height (Video.set_width (Video.set_format Video.empty p) w) h)) := rfl
    rw [e, hfx, hwx]
  · have e : Video.format (Video.new p w h)
        = Video.format (Video.set_height (Video.set_width (Video.set_format Video.empty p) w) h) := rfl
    rw [e, hfx]
  · have e : Video.width (Video.new p w h)
        = Video.width (Video.set_height (Video.set_width (Video.set_format Video.empty p) w) h) := rfl
    rw [e, hwx]
  · have e : Video.height (Video.new p w h) = u32OfInt (intOfU32 h) := rfl
    rw [e, u32OfInt_intOfU32]

/-- C6: cloning an allocated frame (a covered packed format with the
canonical freshly-allocated stride array) yields a frame whose byte-plane
views are byte-for-byte identical to the source's and whose metadata
getters — format, dimensions, picture kind, flags, color tags, chroma
location, aspect ratio, picture numbers — all return the same values as on
the source. -/
theorem clone_roundtrip (f : AVFrame)
    (hfmt : (bytesPerPixel (Video.format f)).isSome = true)
    (hls : f.linesize = allocLinesize (Video.format f) (Video.width f)) :
    Video.data (Video.clone f) = Video.data f
    ∧ Video.data_mut (Video.clone f) = Video.data_mut f
    ∧ Video.format (Video.clone f) = Video.format f
    ∧ Video.width (Video.clone f) = Video.width f
    ∧ Video.height (Video.clone f) = Video.height f
    ∧ Video.kind (Video.clone f) = Video.kind f
    ∧ Video.is_interlaced (Video.clone f) = Video.is_interlaced f
    ∧ Video.is_top_first (Video.clone f) = Video.is_top_first f
    ∧ Video.has_palette_changed (Video.clone f) = Video.has_palette_changed f
    ∧ Video.color_space (Video.clone f) = Video.color_space f
    ∧ Video.color_range (Video.clone f) = Video.color_range f
    ∧ Video.color_primaries (Video.clone f) = Video.color_primaries f
    ∧ Video.color_transfer_characteristic (Video.clone f)
        = Video.color_transfer_characteristic f
    ∧ Video.chroma_location (Video.clone f) = Video.chroma_location f
    ∧ Video.aspect_ratio (Video.clone f) = Video.aspect_ratio f
    ∧ Video.coded_number (Video.clone f) = Video.coded_number f
    ∧ Video.display_number (Video.clone f) = Video.display_number f := by
  obtain ⟨hlsn, hfn, hwn, hhn⟩ :=
    new_spec (Video.format f) (Video.width f) (Video.height f) hfmt (u32OfInt_lt f.width)
  have hF : Video.format (Video.clone f) = Video.format f := by
    have e : Video.format (Video.clone f)
        = Video.format (Video.new (Video.format f) (Video.width f) (Video.height f)) := rfl
    rw [e, hfn]
  have hW : Video.width (Video.clone f) = Video.width f := by
    have e : Video.width (Video.clone f)
        = Video.width (Video.new (Video.format f) (Video.width f) (Video.height f)) := rfl
    rw [e, hwn]
  have hH : Video.height (Video.clone f) = Video.height f := by
    have e : Video.height (Video.clone f)
        = Video.height (Video.new (Video.format f) (Video.width f) (Video.height f)) := rfl
    rw [e, hhn]
    exact Nat.mod_eq_of_lt (u32OfInt_lt f.height)
  have hL : (Video.clone f).linesize = f.linesize := by
    have e : (Video.clone f).linesize
        = (Video.new (Video.format f) (Video.width f) (Video.height f)).linesize := rfl
    rw [e, hlsn, ← hls]
  have hM : (Video.clone f).mem = f.mem := rfl
  have hD : Video.data (Video.clone f) = Video.data f := by
    simp only [Video.data, Video.planeSlice]
    rw [hL, hM, hH]
  have hDm : Video.data_mut (Video.clone f) = Video.data_mut f := by
    simp only [Video.data_mut, Video.planeSlice]
    rw [hL, hM, hH]
  exact ⟨hD, hDm, hF, hW, hH, rfl, rfl, rfl, rfl, rfl, rfl, rfl, rfl, rfl, rfl, rfl, rfl⟩

/-- C6 witness: cloning a fresh 2×1 RGB24 frame reproduces its byte-plane
views. -/
theorem clone_roundtrip_witness :
    Video.data (Video.clone (Video.new Pixel.RGB24 2 1))
      = Video.data (Video.new Pixel.RGB24 2 1) :=
  (clone_roundtrip (Video.new Pixel.RGB24 2 1) (by decide) (by decide)).1

end FrameVideo
